import Mathlib

/-!
Shallow embedding of `ComponentAnimalBleeding`
(src/DayZoptimization-main/reference/3_game/tools/component/componentanimalbleeding.c),
the animal wound-infliction and bleeding component.

Floats of the script are modelled as rationals (`ℚ`); the engine's entity
health interface (`SetHealth` / `DecreaseHealth` / `GetHealth` / `IsAlive`),
the configuration lookup and the timer facility are external collaborators,
modelled from the spec's description of their contracts (§6): an empty zone
or resource name denotes the global scope, `DecreaseHealth` subtracts the
amount from the addressed resource, and a creature is alive iff its global
health is positive.
-/

namespace AnimalBleeding

/-- Modelled from the spec: the engine resolves an empty resource name to the
global "Health" resource (`SetHealth("", "", 0)` zeroes global health). -/
def normRes (res : String) : String := if res = "" then "Health" else res

/-- Modelled from the spec: the creature's health state, a table of named
resources per named zone; zone `""` is the global scope. -/
structure EntityState where
  health : String → String → ℚ

/-- Modelled from the spec: `Creature.SetHealth(zone, resource, value)`. -/
def EntityState.setHealth (e : EntityState) (zone res : String) (v : ℚ) :
    EntityState :=
  ⟨fun z r => if z = zone ∧ r = normRes res then v else e.health z r⟩

/-- Modelled from the spec: `Creature.DecreaseHealth(zone, resource, amount)`
subtracts `amount` from the addressed resource. -/
def EntityState.decreaseHealth (e : EntityState) (zone res : String) (amt : ℚ) :
    EntityState :=
  ⟨fun z r =>
    if z = zone ∧ r = normRes res then e.health z r - amt else e.health z r⟩

/-- Modelled from the spec: `Creature.GetHealth(zone, resource)`. -/
def EntityState.getHealth (e : EntityState) (zone res : String) : ℚ :=
  e.health zone (normRes res)

/-- Modelled from the spec: `Creature.IsAlive()` — a creature is alive iff its
global health is positive (killing it via `SetHealth("", "", 0)` makes it
not-alive). -/
def EntityState.isAlive (e : EntityState) : Bool :=
  decide (0 < e.getHealth "" "")

/-- `TotalDamageResult`, queried only through
`GetDamage(zone_name, resource_name)`: modelled as that query function. -/
def TotalDamageResult : Type := String → String → ℚ

/-- `damage_result.GetDamage(zone, resource)`. -/
def TotalDamageResult.GetDamage (d : TotalDamageResult) (zone res : String) :
    ℚ :=
  d zone res

-- `protected const float BASE_BLEED_RATE = 250;`
def BASE_BLEED_RATE : ℚ := 250

-- `protected const float PASS_OUT_AMOUT = 500;` (spelling as in the source)
def PASS_OUT_AMOUT : ℚ := 500

/-- `InflictWoundDamage(damage_result, zone_name, ammo)`, as a state
transformer on the creature: the `ammo == "MeleeWolf"` branch calls
`SetHealth("", "", 0)`; `if (!zone_name) return;` exits on the empty string;
otherwise the damage read for `(zone_name, "Health")` is decreased from
global Health and — under the source's redundant `zone_name != ""` re-check —
from the zone-scoped Health. -/
def InflictWoundDamage (damage_result : TotalDamageResult)
    (zone_name ammo : String) (e : EntityState) : EntityState :=
  let e := if ammo = "MeleeWolf" then e.setHealth "" "" 0 else e
  if zone_name = "" then e
  else
    let health_damage_inflicted := damage_result.GetDamage zone_name "Health"
    let wound_healt_damage := health_damage_inflicted
    let e := e.decreaseHealth "" "Health" wound_healt_damage
    if zone_name ≠ "" then
      e.decreaseHealth zone_name "Health" wound_healt_damage
    else e

/-- One call the component makes into the engine's health interface. -/
inductive HealthEffect where
  | set (zone res : String) (value : ℚ)
  | dec (zone res : String) (amount : ℚ)
deriving DecidableEq, Repr

/-- `InflictWoundDamage` observed as the sequence of engine health calls it
issues, in source order: the same branches as `InflictWoundDamage`, recording
each `SetHealth` / `DecreaseHealth` call instead of interpreting it. -/
def InflictWoundDamageTrace (damage_result : TotalDamageResult)
    (zone_name ammo : String) : List HealthEffect :=
  (if ammo = "MeleeWolf" then [HealthEffect.set "" "" 0] else []) ++
  if zone_name = "" then []
  else
    let wound_healt_damage := damage_result.GetDamage zone_name "Health"
    [HealthEffect.dec "" "Health" wound_healt_damage] ++
    if zone_name ≠ "" then [HealthEffect.dec zone_name "Health" wound_healt_damage]
    else []

/-- `GetWoundIntensity(bleed_treshold)` — `return bleed_treshold * 2;`. -/
def GetWoundIntensity (bleed_treshold : ℚ) : ℚ :=
  bleed_treshold * 2

/-- Modelled from the spec: a `Timer` object of the engine's timer facility.
`Run(interval, this, "Bleed", Param1<float>(wi), loop)` binds the interval,
the callback parameter and the loop flag; `Stop()` clears `running`. -/
structure TimerObj where
  interval : ℚ
  intensity : ℚ
  loop : Bool
  running : Bool

/-- The component's state: the owned creature (`m_ThisEntityAI`), the heap of
`Timer` objects ever allocated (indexed by allocation order, `nextId` the next
fresh index) and the single reference slot `m_BleedTimer`. -/
structure ComponentState where
  entity : EntityState
  timers : Nat → TimerObj
  nextId : Nat
  m_BleedTimer : Option Nat

/-- Modelled from the spec: the game configuration, read through
`ConfigGetFloat(path)`. -/
def Config : Type := String → ℚ

/-- The `canBleed` lookup path built by `CreateWound`'s string concatenation:
`"CfgVehicles " + type + " DamageSystem " + "DamageZones " + zone + " canBleed"`. -/
def canBleedPath (entityType zone_name : String) : String :=
  "CfgVehicles " ++ entityType ++ " DamageSystem " ++ "DamageZones " ++
    zone_name ++ " canBleed"

/-- The `bleedThreshold` lookup path built by `CreateWound`:
`"CfgAmmo " + ammo + " DamageApplied " + "bleedThreshold"`. -/
def bleedThresholdPath (ammo : String) : String :=
  "CfgAmmo " ++ ammo ++ " DamageApplied " ++ "bleedThreshold"

/-- `CreateWound(damage_result, zone_name, ammo)`. `cfg` is the game
configuration, `entityType` is `m_ThisEntityAI.GetType()` and `chance` is the
draw returned by `Math.RandomFloat01()` (uniform on `[0,1)`), passed in so the
decision is a function of the fixed draw. The body first calls
`InflictWoundDamage`, then starts a repeating 1-second "Bleed" timer iff
`can_bleed && chance <= bleed_threshold`, storing the new `Timer` in the
single slot `m_BleedTimer` without touching the previously referenced one. -/
def CreateWound (cfg : Config) (entityType : String) (chance : ℚ)
    (damage_result : TotalDamageResult) (zone_name ammo : String)
    (c : ComponentState) : ComponentState :=
  let c := { c with entity := InflictWoundDamage damage_result zone_name ammo c.entity }
  let can_bleed := cfg (canBleedPath entityType zone_name) > 0
  let bleed_threshold := cfg (bleedThresholdPath ammo)
  if can_bleed ∧ chance ≤ bleed_threshold then
    let wound_intensity := GetWoundIntensity bleed_threshold
    { c with
      timers := fun j =>
        if j = c.nextId then ⟨1, wound_intensity, true, true⟩ else c.timers j,
      nextId := c.nextId + 1,
      m_BleedTimer := some c.nextId }
  else c

/-- `m_BleedTimer.Stop()`: mark the timer referenced by the slot as not
running (no-op when the slot is empty). -/
def stopBleedTimer (c : ComponentState) : ComponentState :=
  match c.m_BleedTimer with
  | none => c
  | some i =>
      { c with timers := fun j =>
          if j = i then { c.timers i with running := false } else c.timers j }

/-- `Bleed(wound_intensity)`, one timer tick: while alive, read the global
Blood level, decrease global Blood by `BASE_BLEED_RATE * wound_intensity`,
and if the level read before the decrease was under `PASS_OUT_AMOUT` set
global health to zero; once not alive, stop the timer. -/
def Bleed (wound_intensity : ℚ) (c : ComponentState) : ComponentState :=
  if c.entity.isAlive then
    let bleeding_intensity := BASE_BLEED_RATE * wound_intensity
    let global_blood_lvl := c.entity.getHealth "" "Blood"
    let e := c.entity.decreaseHealth "" "Blood" bleeding_intensity
    let e :=
      if global_blood_lvl < PASS_OUT_AMOUT then e.setHealth "" "" 0 else e
    { c with entity := e }
  else
    stopBleedTimer c

/-- Whether the timer referenced by `m_BleedTimer` is currently running, i.e.
whether a further tick will fire for this bleed instance. -/
def timerRunning (c : ComponentState) : Bool :=
  match c.m_BleedTimer with
  | none => false
  | some i => (c.timers i).running

/-- The scheduler's view of one tick period: the referenced timer fires
`Bleed` iff it is still running, otherwise nothing happens. -/
def bleedRunStep (wound_intensity : ℚ) (c : ComponentState) : ComponentState :=
  if timerRunning c then Bleed wound_intensity c else c

/-! Concrete fixtures used by witnesses and counterexamples. -/

/-- A creature whose every health resource reads `v`. -/
def entConst (v : ℚ) : EntityState := ⟨fun _ _ => v⟩

/-- A damage report giving magnitude `v` for every zone/resource pair. -/
def drConst (v : ℚ) : TotalDamageResult := fun _ _ => v

/-- A creature with global Health `h` and global Blood `b`. -/
def entHB (h b : ℚ) : EntityState :=
  ⟨fun z r =>
    if z = "" ∧ r = "Blood" then b
    else if z = "" ∧ r = "Health" then h else 0⟩

/-- A component with no timer allocated yet. -/
def compInit (e : EntityState) : ComponentState :=
  ⟨e, fun _ => ⟨0, 0, false, false⟩, 0, none⟩

/-- A component with one running bleed timer (id 0) over creature `e`. -/
def compBleeding (e : EntityState) : ComponentState :=
  ⟨e, fun _ => ⟨1, 1, true, true⟩, 1, some 0⟩

/-- A demo configuration: zone `Torso` of creature type `Wolf` can bleed,
ammo `Bullet` has `bleedThreshold` 0 and ammo `Shot` has 1/2. -/
def cfgDemo : Config := fun p =>
  if p = canBleedPath "Wolf" "Torso" then 1
  else if p = bleedThresholdPath "Bullet" then 0
  else if p = bleedThresholdPath "Shot" then 1/2
  else 0

/-! Theorems for the claims. -/

/-- C1: for a non-empty `zone_name` and ammo other than the instant-kill
class `"MeleeWolf"`, `InflictWoundDamage` decreases the creature's global
Health resource by exactly the report's magnitude for `(zone_name, "Health")`
and decreases the zone-scoped Health resource by the same magnitude. -/
theorem inflictWoundDamage_decreases_global_and_zone_health
    (d : TotalDamageResult) (zone_name ammo : String) (e : EntityState)
    (hz : zone_name ≠ "") (ha : ammo ≠ "MeleeWolf") :
    (InflictWoundDamage d zone_name ammo e).getHealth "" "Health"
        = e.getHealth "" "Health" - d.GetDamage zone_name "Health"
    ∧ (InflictWoundDamage d zone_name ammo e).getHealth zone_name "Health"
        = e.getHealth zone_name "Health" - d.GetDamage zone_name "Health" := by
  simp [InflictWoundDamage, EntityState.decreaseHealth, EntityState.getHealth,
    normRes, ha, hz, Ne.symm hz]

/-- Witness for C1: a creature at 100 hit for 10 on zone `Torso` by `Bullet`
ends with 90 global and 90 zone-scoped Health. -/
theorem inflictWoundDamage_decreases_global_and_zone_health_witness :
    ("Torso" : String) ≠ "" ∧ ("Bullet" : String) ≠ "MeleeWolf"
    ∧ ((InflictWoundDamage (drConst 10) "Torso" "Bullet" (entConst 100)).getHealth "" "Health"
          = (entConst 100).getHealth "" "Health" - (drConst 10).GetDamage "Torso" "Health"
       ∧ (InflictWoundDamage (drConst 10) "Torso" "Bullet" (entConst 100)).getHealth "Torso" "Health"
          = (entConst 100).getHealth "Torso" "Health" - (drConst 10).GetDamage "Torso" "Health") :=
  ⟨by decide, by decide,
    inflictWoundDamage_decreases_global_and_zone_health (drConst 10) "Torso"
      "Bullet" (entConst 100) (by decide) (by decide)⟩

/-- C2 counterexample: with ammo `"MeleeWolf"` and the non-empty zone
`"Torso"`, the call's side effects are NOT just the one set-to-zero call —
the two health-decrease calls still follow, since the `MeleeWolf` branch does
not return. -/
theorem meleeWolf_trace_not_only_set_to_zero :
    InflictWoundDamageTrace (drConst 10) "Torso" "MeleeWolf"
      ≠ [HealthEffect.set "" "" 0] := by decide

/-- C2 amended: with ammo `"MeleeWolf"`, global health is set to zero first
(the set-to-zero call heads the effect sequence); with an empty `zone_name`
it is the only side effect, but with a non-empty `zone_name` the two
health-decrease calls still follow it. -/
theorem meleeWolf_sets_health_zero_first (d : TotalDamageResult)
    (zone_name : String) :
    (InflictWoundDamageTrace d zone_name "MeleeWolf").head?
        = some (HealthEffect.set "" "" 0)
    ∧ (zone_name = "" →
        InflictWoundDamageTrace d zone_name "MeleeWolf"
          = [HealthEffect.set "" "" 0])
    ∧ (zone_name ≠ "" →
        InflictWoundDamageTrace d zone_name "MeleeWolf"
          = [HealthEffect.set "" "" 0,
             HealthEffect.dec "" "Health" (d.GetDamage zone_name "Health"),
             HealthEffect.dec zone_name "Health" (d.GetDamage zone_name "Health")]) := by
  by_cases hz : zone_name = "" <;> simp [InflictWoundDamageTrace, hz]

/-- Witness for C2 (amended): the concrete `Torso`/`MeleeWolf` call issues
the set-to-zero call first and then the two decreases. -/
theorem meleeWolf_sets_health_zero_first_witness :
    ("Torso" : String) ≠ ""
    ∧ InflictWoundDamageTrace (drConst 10) "Torso" "MeleeWolf"
        = [HealthEffect.set "" "" 0,
           HealthEffect.dec "" "Health" ((drConst 10).GetDamage "Torso" "Health"),
           HealthEffect.dec "Torso" "Health" ((drConst 10).GetDamage "Torso" "Health")] :=
  ⟨by decide,
    (meleeWolf_sets_health_zero_first (drConst 10) "Torso").2.2 (by decide)⟩

/-- C3 counterexample: with an empty `zone_name` but ammo `"MeleeWolf"`,
`InflictWoundDamage` is NOT a no-op — the lethal branch zeroes global health
before the empty-zone early exit is reached. -/
theorem emptyZone_meleeWolf_mutates_health :
    (InflictWoundDamage (drConst 10) "" "MeleeWolf" (entConst 100)).getHealth "" ""
      ≠ (entConst 100).getHealth "" "" := by decide

/-- C3 amended: with an empty `zone_name` and any ammo other than
`"MeleeWolf"`, `InflictWoundDamage` leaves the creature's state untouched,
regardless of the damage report. -/
theorem inflictWoundDamage_emptyZone_noop (d : TotalDamageResult)
    (ammo : String) (e : EntityState) (ha : ammo ≠ "MeleeWolf") :
    InflictWoundDamage d "" ammo e = e := by
  simp [InflictWoundDamage, ha]

/-- Witness for C3 (amended): an empty-zone `Bullet` hit changes nothing. -/
theorem inflictWoundDamage_emptyZone_noop_witness :
    ("Bullet" : String) ≠ "MeleeWolf"
    ∧ InflictWoundDamage (drConst 10) "" "Bullet" (entConst 100) = entConst 100 :=
  ⟨by decide,
    inflictWoundDamage_emptyZone_noop (drConst 10) "Bullet" (entConst 100)
      (by decide)⟩

/-- C9: `GetWoundIntensity` is exactly doubling: it equals
`bleed_threshold * 2` everywhere, takes the spec's sample values, is linear,
and is not clamped — it exceeds 1 whenever the threshold exceeds 1/2. -/
theorem getWoundIntensity_doubles :
    (∀ t : ℚ, GetWoundIntensity t = t * 2)
    ∧ GetWoundIntensity (1/2) = 1
    ∧ GetWoundIntensity 0 = 0
    ∧ (∀ a b : ℚ,
        GetWoundIntensity (a + b) = GetWoundIntensity a + GetWoundIntensity b)
    ∧ (∀ s t : ℚ, GetWoundIntensity (s * t) = s * GetWoundIntensity t)
    ∧ (∀ t : ℚ, 1/2 < t → 1 < GetWoundIntensity t) := by
  refine ⟨fun t => rfl, by norm_num [GetWoundIntensity],
    by norm_num [GetWoundIntensity],
    fun a b => by simp [GetWoundIntensity]; ring,
    fun s t => by simp [GetWoundIntensity]; ring,
    fun t ht => ?_⟩
  simp only [GetWoundIntensity]
  linarith

/-- Witness for C9: evaluated at threshold 3/5 the intensity is 6/5 > 1. -/
theorem getWoundIntensity_doubles_witness :
    (1 : ℚ)/2 < 3/5 ∧ 1 < GetWoundIntensity (3/5) :=
  ⟨by norm_num, getWoundIntensity_doubles.2.2.2.2.2 (3/5) (by norm_num)⟩

/-- Observation that `CreateWound` moved component `c` to component `r` by
installing a fresh bleed timer: one new `Timer` was allocated, the slot
references it, and it is a running, repeating, 1-second timer bound to
`wound_intensity`. -/
def bleedStarted (c r : ComponentState) (wound_intensity : ℚ) : Prop :=
  r.nextId = c.nextId + 1
  ∧ r.m_BleedTimer = some c.nextId
  ∧ r.timers c.nextId = ⟨1, wound_intensity, true, true⟩

/-- C4: `CreateWound` installs a repeating bleed timer (bound to the derived
wound intensity) iff the zone's `canBleed` config reads positive AND the
fixed random draw is at most the ammo's `bleedThreshold`; the decision is a
deterministic function of the draw, and the damage application happens first
and unconditionally, whichever way the decision goes. -/
theorem createWound_bleeds_iff (cfg : Config) (entityType : String)
    (chance : ℚ) (d : TotalDamageResult) (zone_name ammo : String)
    (c : ComponentState) :
    (CreateWound cfg entityType chance d zone_name ammo c).entity
        = InflictWoundDamage d zone_name ammo c.entity
    ∧ (bleedStarted c (CreateWound cfg entityType chance d zone_name ammo c)
          (GetWoundIntensity (cfg (bleedThresholdPath ammo)))
        ↔ (cfg (canBleedPath entityType zone_name) > 0
            ∧ chance ≤ cfg (bleedThresholdPath ammo))) := by
  by_cases hcond : cfg (canBleedPath entityType zone_name) > 0
      ∧ chance ≤ cfg (bleedThresholdPath ammo)
  · simp [CreateWound, bleedStarted, hcond]
  · have hr : CreateWound cfg entityType chance d zone_name ammo c
        = { c with entity := InflictWoundDamage d zone_name ammo c.entity } := by
      simp [CreateWound, hcond]
    rw [hr]
    refine ⟨rfl, ⟨fun hbs => ?_, fun hc => absurd hc hcond⟩⟩
    have h1 : c.nextId = c.nextId + 1 := hbs.1
    exact absurd h1 (by omega)

/-- Witness for C4: with `canBleed = 1`, `bleedThreshold = 1/2` and draw
`3/10`, the decision condition holds and a running repeating timer with
intensity `GetWoundIntensity (1/2)` is installed. -/
theorem createWound_bleeds_iff_witness :
    (cfgDemo (canBleedPath "Wolf" "Torso") > 0
      ∧ (3/10 : ℚ) ≤ cfgDemo (bleedThresholdPath "Shot"))
    ∧ bleedStarted (compInit (entConst 100))
        (CreateWound cfgDemo "Wolf" (3/10) (drConst 10) "Torso" "Shot"
          (compInit (entConst 100)))
        (GetWoundIntensity (cfgDemo (bleedThresholdPath "Shot"))) := by
  have hcond : cfgDemo (canBleedPath "Wolf" "Torso") > 0
      ∧ (3/10 : ℚ) ≤ cfgDemo (bleedThresholdPath "Shot") := by
    constructor <;> simp [cfgDemo, canBleedPath, bleedThresholdPath]
    norm_num
  exact ⟨hcond,
    (createWound_bleeds_iff cfgDemo "Wolf" (3/10) (drConst 10) "Torso" "Shot"
      (compInit (entConst 100))).2.mpr hcond⟩

/-- C5 counterexample: `bleedThreshold = 0` does NOT guarantee no bleed for
every draw in `[0,1)`: the draw `0` lies in `[0,1)`, satisfies
`chance <= bleed_threshold`, and starts a bleed on a bleedable zone. -/
theorem thresholdZero_drawZero_bleeds :
    cfgDemo (bleedThresholdPath "Bullet") = 0
    ∧ cfgDemo (canBleedPath "Wolf" "Torso") > 0
    ∧ (0 : ℚ) ≤ 0 ∧ (0 : ℚ) < 1
    ∧ timerRunning (compInit (entConst 100)) = false
    ∧ timerRunning (CreateWound cfgDemo "Wolf" 0 (drConst 10) "Torso" "Bullet"
        (compInit (entConst 100))) = true := by decide

/-- C5 amended: a zone whose `canBleed` config is not positive never starts
a bleed, for every draw; and `bleedThreshold = 0` starts no bleed for every
strictly positive draw (a draw of exactly 0 still starts one) — in both
cases `CreateWound` only applies the damage. -/
theorem createWound_no_bleed_guarantees (cfg : Config) (entityType : String)
    (chance : ℚ) (d : TotalDamageResult) (zone_name ammo : String)
    (c : ComponentState) :
    (¬ cfg (canBleedPath entityType zone_name) > 0 →
      CreateWound cfg entityType chance d zone_name ammo c
        = { c with entity := InflictWoundDamage d zone_name ammo c.entity })
    ∧ (cfg (bleedThresholdPath ammo) = 0 → 0 < chance →
      CreateWound cfg entityType chance d zone_name ammo c
        = { c with entity := InflictWoundDamage d zone_name ammo c.entity }) := by
  constructor
  · intro hcb
    simp [CreateWound, hcb]
  · intro h0 hc
    simp [CreateWound, h0, hc.not_le]

/-- Witness for C5 (amended): threshold 0 with the positive draw `1/2`
leaves the component unchanged apart from the damage application. -/
theorem createWound_no_bleed_guarantees_witness :
    cfgDemo (bleedThresholdPath "Bullet") = 0 ∧ (0 : ℚ) < 1/2
    ∧ CreateWound cfgDemo "Wolf" (1/2) (drConst 10) "Torso" "Bullet"
        (compInit (entConst 100))
      = { compInit (entConst 100) with
          entity := InflictWoundDamage (drConst 10) "Torso" "Bullet"
            (compInit (entConst 100)).entity } :=
  ⟨by decide, by norm_num,
    (createWound_no_bleed_guarantees cfgDemo "Wolf" (1/2) (drConst 10) "Torso"
      "Bullet" (compInit (entConst 100))).2 (by decide) (by norm_num)⟩

/-- C6: on a tick where the creature is alive, global Blood decreases by
exactly `BASE_BLEED_RATE * wound_intensity`, with `BASE_BLEED_RATE = 250`;
the tick uses the `wound_intensity` bound into the timer at bleed start,
which `bleedRunStep` passes unchanged to every tick. -/
theorem bleed_tick_drains_blood (wound_intensity : ℚ) (c : ComponentState)
    (h : c.entity.isAlive = true) :
    BASE_BLEED_RATE = 250
    ∧ (Bleed wound_intensity c).entity.getHealth "" "Blood"
        = c.entity.getHealth "" "Blood" - BASE_BLEED_RATE * wound_intensity := by
  refine ⟨rfl, ?_⟩
  rcases lt_or_le (c.entity.health "" "Blood") PASS_OUT_AMOUT with hp | hp
  · simp [Bleed, h, hp, EntityState.setHealth, EntityState.decreaseHealth,
      EntityState.getHealth, normRes]
  · simp [Bleed, h, not_lt.mpr hp, EntityState.setHealth,
      EntityState.decreaseHealth, EntityState.getHealth, normRes]

/-- Witness for C6: an alive creature with Blood 600 bled at intensity 1
loses exactly 250 Blood on the tick. -/
theorem bleed_tick_drains_blood_witness :
    (compBleeding (entHB 100 600)).entity.isAlive = true
    ∧ (BASE_BLEED_RATE = 250
      ∧ (Bleed 1 (compBleeding (entHB 100 600))).entity.getHealth "" "Blood"
          = (compBleeding (entHB 100 600)).entity.getHealth "" "Blood"
              - BASE_BLEED_RATE * 1) :=
  ⟨by decide, bleed_tick_drains_blood 1 (compBleeding (entHB 100 600)) (by decide)⟩

/-- C7: the pass-out check uses the Blood level read before the tick's
decrease: on an alive tick with pre-decrease Blood under `PASS_OUT_AMOUT`
(500), global health is set to 0 on that same tick and the Blood decrease is
still applied; with pre-decrease Blood at or above 500, global health is
untouched (so a tick whose decrease drops Blood below 500 does not kill). -/
theorem bleed_tick_passout_uses_pre_read (wound_intensity : ℚ)
    (c : ComponentState) (h : c.entity.isAlive = true) :
    (c.entity.getHealth "" "Blood" < PASS_OUT_AMOUT →
      (Bleed wound_intensity c).entity.getHealth "" "" = 0
      ∧ (Bleed wound_intensity c).entity.getHealth "" "Blood"
          = c.entity.getHealth "" "Blood" - BASE_BLEED_RATE * wound_intensity)
    ∧ (¬ c.entity.getHealth "" "Blood" < PASS_OUT_AMOUT →
      (Bleed wound_intensity c).entity.getHealth "" ""
          = c.entity.getHealth "" ""
      ∧ (Bleed wound_intensity c).entity.getHealth "" "Blood"
          = c.entity.getHealth "" "Blood" - BASE_BLEED_RATE * wound_intensity) := by
  constructor <;> intro hp
  · have hp' : c.entity.health "" "Blood" < PASS_OUT_AMOUT := by
      simpa [EntityState.getHealth, normRes] using hp
    simp [Bleed, h, hp', EntityState.setHealth, EntityState.decreaseHealth,
      EntityState.getHealth, normRes]
  · have hp' : ¬ c.entity.health "" "Blood" < PASS_OUT_AMOUT := by
      simpa [EntityState.getHealth, normRes] using hp
    simp [Bleed, h, hp', EntityState.setHealth, EntityState.decreaseHealth,
      EntityState.getHealth, normRes]

/-- Witness for C7: alive with Blood 400 (< 500) and intensity 1, the tick
zeroes global health and still drains Blood to 150. -/
theorem bleed_tick_passout_uses_pre_read_witness :
    (compBleeding (entHB 100 400)).entity.isAlive = true
    ∧ (compBleeding (entHB 100 400)).entity.getHealth "" "Blood" < PASS_OUT_AMOUT
    ∧ ((Bleed 1 (compBleeding (entHB 100 400))).entity.getHealth "" "" = 0
      ∧ (Bleed 1 (compBleeding (entHB 100 400))).entity.getHealth "" "Blood"
          = (compBleeding (entHB 100 400)).entity.getHealth "" "Blood"
              - BASE_BLEED_RATE * 1) :=
  ⟨by decide, by decide,
    (bleed_tick_passout_uses_pre_read 1 (compBleeding (entHB 100 400))
      (by decide)).1 (by decide)⟩

/-- C8: on a tick where the creature is not alive, `Bleed` stops the
referenced timer and mutates no health or blood; the stopped state is
terminal — with the timer no longer running, every further scheduler step
leaves the component exactly as it is, so no tick ever fires again for this
bleed instance (only a fresh `CreateWound` allocates a new running timer). -/
theorem bleed_dead_tick_terminal (wound_intensity : ℚ) (c : ComponentState)
    (h : c.entity.isAlive = false) :
    (Bleed wound_intensity c).entity = c.entity
    ∧ timerRunning (Bleed wound_intensity c) = false
    ∧ ∀ n, (bleedRunStep wound_intensity)^[n] (Bleed wound_intensity c)
        = Bleed wound_intensity c := by
  have hb : Bleed wound_intensity c = stopBleedTimer c := by
    simp [Bleed, h]
  have h1 : (Bleed wound_intensity c).entity = c.entity := by
    rw [hb]
    cases hc : c.m_BleedTimer <;> simp [stopBleedTimer, hc]
  have h2 : timerRunning (Bleed wound_intensity c) = false := by
    rw [hb]
    cases hc : c.m_BleedTimer <;> simp [stopBleedTimer, timerRunning, hc]
  refine ⟨h1, h2, ?_⟩
  intro n
  induction n with
  | zero => rfl
  | succ k ih =>
      rw [Function.iterate_succ_apply]
      have hstep : bleedRunStep wound_intensity (Bleed wound_intensity c)
          = Bleed wound_intensity c := by
        simp [bleedRunStep, h2]
      rw [hstep, ih]

/-- Witness for C8: a dead creature's tick stops the timer, changes nothing,
and five further scheduler steps leave the component fixed. -/
theorem bleed_dead_tick_terminal_witness :
    (compBleeding (entConst 0)).entity.isAlive = false
    ∧ (Bleed 1 (compBleeding (entConst 0))).entity
        = (compBleeding (entConst 0)).entity
    ∧ timerRunning (Bleed 1 (compBleeding (entConst 0))) = false
    ∧ (bleedRunStep 1)^[5] (Bleed 1 (compBleeding (entConst 0)))
        = Bleed 1 (compBleeding (entConst 0)) :=
  ⟨by decide,
    (bleed_dead_tick_terminal 1 (compBleeding (entConst 0)) (by decide)).1,
    (bleed_dead_tick_terminal 1 (compBleeding (entConst 0)) (by decide)).2.1,
    (bleed_dead_tick_terminal 1 (compBleeding (entConst 0)) (by decide)).2.2 5⟩

/-- C10: the component keeps a single timer reference (`m_BleedTimer` is one
`Option` slot). When `CreateWound` starts a new bleed while the slot holds a
running timer, the new timer replaces the reference in the slot, and the old
timer is not stopped — it is still running after the overwrite. -/
theorem createWound_overwrites_slot_without_stopping (cfg : Config)
    (entityType : String) (chance : ℚ) (d : TotalDamageResult)
    (zone_name ammo : String) (c : ComponentState) (i : Nat)
    (_hslot : c.m_BleedTimer = some i) (hi : i < c.nextId)
    (hrun : (c.timers i).running = true)
    (hstart : cfg (canBleedPath entityType zone_name) > 0
      ∧ chance ≤ cfg (bleedThresholdPath ammo)) :
    (CreateWound cfg entityType chance d zone_name ammo c).m_BleedTimer
        = some c.nextId
    ∧ c.nextId ≠ i
    ∧ ((CreateWound cfg entityType chance d zone_name ammo c).timers i).running
        = true := by
  have hne : i ≠ c.nextId := Nat.ne_of_lt hi
  exact ⟨by simp [CreateWound, hstart], Ne.symm hne,
    by simp [CreateWound, hstart, hne, hrun]⟩

/-- Witness for C10: a component already bleeding (running timer 0) that
starts a second wound ends with the slot on the new timer 1 while timer 0 is
still running. -/
theorem createWound_overwrites_slot_without_stopping_witness :
    (compBleeding (entConst 100)).m_BleedTimer = some 0
    ∧ 0 < (compBleeding (entConst 100)).nextId
    ∧ ((compBleeding (entConst 100)).timers 0).running = true
    ∧ ((CreateWound cfgDemo "Wolf" (3/10) (drConst 10) "Torso" "Shot"
          (compBleeding (entConst 100))).m_BleedTimer
        = some (compBleeding (entConst 100)).nextId
      ∧ (compBleeding (entConst 100)).nextId ≠ 0
      ∧ ((CreateWound cfgDemo "Wolf" (3/10) (drConst 10) "Torso" "Shot"
            (compBleeding (entConst 100))).timers 0).running = true) := by
  have hcond : cfgDemo (canBleedPath "Wolf" "Torso") > 0
      ∧ (3/10 : ℚ) ≤ cfgDemo (bleedThresholdPath "Shot") := by
    constructor <;> simp [cfgDemo, canBleedPath, bleedThresholdPath]
    norm_num
  exact ⟨by decide, by decide, by decide,
    createWound_overwrites_slot_without_stopping cfgDemo "Wolf" (3/10)
      (drConst 10) "Torso" "Shot" (compBleeding (entConst 100)) 0 (by decide)
      (by decide) (by decide) hcond⟩

end AnimalBleeding
